import Mathlib

/-!
# Casbah front end: submit handlers, session and alert state

A shallow embedding of `src/public/src/App.js`.  React state cells become
record fields, the three asynchronous submit handlers become functions from
the state before the submission and the outcome of the network call to the
state after it, and `try`/`catch` becomes `Except`.  Every call of `fetch`
is recorded in a trace so that "no network call" is a statement about the
state.
-/

namespace Casbah

/-! ## JavaScript values -/

/-- A JavaScript number as far as the program observes it: the handlers only
test a number for truthiness and convert it to text. -/
structure JsNumber where
  text : String
  isZero : Bool
deriving DecidableEq, Repr

/-- A value produced by `JSON.parse`.  An object is its list of members in
source order. -/
inductive Json where
  | null
  | bool (b : Bool)
  | num (n : JsNumber)
  | str (s : String)
  | arr (items : List Json)
  | obj (members : List (String × Json))
deriving Repr

/-- A JavaScript value the program handles: `undefined` or a JSON value. -/
inductive JsValue where
  | undefined
  | ofJson (j : Json)
deriving Repr

/-- An exception object: every value the program can catch is an `Error`
instance, whose `message` is a string. -/
structure JsError where
  name : String
  message : String
deriving DecidableEq, Repr

/-- The `TypeError` raised when an object cannot be converted to a primitive
(engine wording). -/
def notPrimitive : JsError :=
  ⟨"TypeError", "Cannot convert object to primitive value"⟩

/-- The `TypeError` raised by a property read on `null` (engine wording). -/
def nullRead (key : String) : JsError :=
  ⟨"TypeError", "Cannot read properties of null (reading '" ++ key ++ "')"⟩

/-- Whether a parsed object has an own member called `key`. -/
def hasOwn (members : List (String × Json)) (key : String) : Bool :=
  members.any (fun kv => kv.1 == key)

/-- The value of member `key` of a parsed object: the last member of that
name wins, as in `JSON.parse`. -/
def lastMember (members : List (String × Json)) (key : String) : Option Json :=
  members.reverse.lookup key

mutual
/-- The abstract operation ToString on a JSON value.  An array is joined with
commas, `null` items giving the empty text; an object without an own
`toString` member is `[object Object]`, and one with such a member (which
is never callable) cannot be converted. -/
def Json.toJsString : Json → Except JsError String
  | .null => .ok "null"
  | .bool true => .ok "true"
  | .bool false => .ok "false"
  | .num n => .ok n.text
  | .str s => .ok s
  | .arr items => Json.joinItems items
  | .obj members =>
    if members.any (fun kv => kv.1 == "toString") then .error notPrimitive
    else .ok "[object Object]"
/-- The body of `Array.prototype.join` with the default separator. -/
def Json.joinItems : List Json → Except JsError String
  | [] => .ok ""
  | [x] => Json.itemText x
  | x :: y :: rest =>
    match Json.itemText x with
    | .error e => .error e
    | .ok s =>
      match Json.joinItems (y :: rest) with
      | .error e => .error e
      | .ok t => .ok (s ++ "," ++ t)
/-- The text of one array item inside `join`. -/
def Json.itemText : Json → Except JsError String
  | .null => .ok ""
  | .bool true => .ok "true"
  | .bool false => .ok "false"
  | .num n => .ok n.text
  | .str s => .ok s
  | .arr items => Json.joinItems items
  | .obj members =>
    if members.any (fun kv => kv.1 == "toString") then .error notPrimitive
    else .ok "[object Object]"
end

/-- The abstract operation ToString on any value the program handles. -/
def JsValue.toJsString : JsValue → Except JsError String
  | .undefined => .ok "undefined"
  | .ofJson j => j.toJsString

/-- The abstract operation ToBoolean: `undefined`, `null`, `false`, zero and
the empty string are falsy, everything else is truthy. -/
def JsValue.truthy : JsValue → Bool
  | .undefined => false
  | .ofJson .null => false
  | .ofJson (.bool b) => b
  | .ofJson (.num n) => !n.isZero
  | .ofJson (.str s) => s != ""
  | .ofJson (.arr _) => true
  | .ofJson (.obj _) => true

/-- The expression `a || b`. -/
def jsOr (a b : JsValue) : JsValue :=
  if a.truthy then a else b

/-- The property read `data.key` on a parsed body, for a name that no
built-in prototype defines (`message` and `token` here): it throws on
`null`, reads the member of an object, and is `undefined` on anything
else. -/
def Json.getProp (data : Json) (key : String) : Except JsError JsValue :=
  match data with
  | .null => .error (nullRead key)
  | .obj members =>
    match lastMember members key with
    | some v => .ok (.ofJson v)
    | none => .ok .undefined
  | _ => .ok .undefined

/-- The expression `new Error(v)`: the message is ToString of the argument,
and the empty text when the argument is `undefined`. -/
def newError (v : JsValue) : Except JsError JsError :=
  match v with
  | .undefined => .ok ⟨"Error", ""⟩
  | v =>
    match v.toJsString with
    | .error e => .error e
    | .ok m => .ok ⟨"Error", m⟩

/-! ## Requests and responses -/

/-- A file picked in the résumé input. -/
structure File where
  name : String
  type : String
  bytes : List Nat
deriving DecidableEq, Repr

/-- The value of one `FormData` entry: text, or a file. -/
inductive FormDataEntryValue where
  | text (s : String)
  | file (f : File)
deriving DecidableEq, Repr

/-- The body of a request: `JSON.stringify` of an object whose members are
all strings, or a `FormData` (sent as multipart). -/
inductive RequestBody where
  | json (members : List (String × String))
  | formData (entries : List (String × FormDataEntryValue))
deriving DecidableEq, Repr

/-- The arguments of one `fetch` call. -/
structure Request where
  url : String
  method : String
  headers : List (String × String)
  body : RequestBody
deriving DecidableEq, Repr

/-- A response as the handlers read it: the status, and what
`response.json()` settles with. -/
structure Response where
  status : Nat
  json : Except JsError Json

/-- The getter `response.ok`: the status is in the range 200 to 299. -/
def Response.ok (r : Response) : Bool :=
  decide (200 ≤ r.status) && decide (r.status ≤ 299)

/-- The network as a handler sees it: what the promise returned by `fetch`
settles with, a rejection or a response. -/
abbrev Fetch := Request → Except JsError Response

/-- The constant `API_URL`. -/
def API_URL : String := "https://casbah-backend.onrender.com"

/-! ## State -/

/-- The `type` of an alert. -/
inductive AlertType where
  | success
  | error
deriving DecidableEq, Repr

/-- The `alert` state cell of `App`. -/
structure AlertState where
  message : String
  type : AlertType
deriving DecidableEq, Repr

/-- The `view` state cell of `AuthForm`. -/
inductive View where
  | login
  | register
deriving DecidableEq, Repr

/-- The `loginData` state cell. -/
structure LoginData where
  email : String
  password : String
deriving DecidableEq, Repr

/-- The `registerData` state cell. -/
structure RegisterData where
  nom : String
  email : String
  password : String
  confirmPassword : String
deriving DecidableEq, Repr

/-- The value of the `cv` member of `applicationData`: `null` at first and
after a reset, and `files[0]` after a change of the file input, which is a
file or, for an empty selection, `undefined`. -/
inductive CvValue where
  | null
  | undefined
  | file (f : File)
deriving DecidableEq, Repr

/-- The `applicationData` state cell of `ApplicationForm`. -/
structure ApplicationData where
  telephone : String
  poste : String
  motivation : String
  cv : CvValue
deriving DecidableEq, Repr

/-- The state cells of `App`. -/
structure AppState where
  isLoggedIn : Bool
  token : JsValue
  alert : AlertState

/-- The state cells of `AuthForm`. -/
structure AuthFormState where
  view : View
  loginData : LoginData
  registerData : RegisterData
deriving DecidableEq, Repr

/-- The state of the page together with the trace of the `fetch` calls made
so far, oldest first.  The state of a form is meaningful while that form is
mounted. -/
structure World where
  app : AppState
  auth : AuthFormState
  application : ApplicationData
  network : List Request

/-- The initial value of `applicationData`. -/
def ApplicationData.initial : ApplicationData :=
  { telephone := "", poste := "Agent Commercial / Réceptionniste", motivation := "", cv := .null }

/-- The initial values of the state cells of `App`. -/
def AppState.initial : AppState :=
  { isLoggedIn := false, token := .ofJson .null, alert := { message := "", type := .success } }

/-- The initial values of the state cells of `AuthForm`. -/
def AuthFormState.initial : AuthFormState :=
  { view := .login,
    loginData := { email := "", password := "" },
    registerData := { nom := "", email := "", password := "", confirmPassword := "" } }

/-- The page as first rendered, before any request. -/
def World.initial : World :=
  { app := AppState.initial, auth := AuthFormState.initial,
    application := ApplicationData.initial, network := [] }

/-- The state setter `setAlert`. -/
def World.setAlert (w : World) (a : AlertState) : World :=
  { w with app := { w.app with alert := a } }

/-- The state setter `setToken`. -/
def World.setToken (w : World) (t : JsValue) : World :=
  { w with app := { w.app with token := t } }

/-- The state setter `setIsLoggedIn`. -/
def World.setIsLoggedIn (w : World) (b : Bool) : World :=
  { w with app := { w.app with isLoggedIn := b } }

/-- The state setter `setView`. -/
def World.setView (w : World) (v : View) : World :=
  { w with auth := { w.auth with view := v } }

/-- The state setter `setApplicationData`. -/
def World.setApplicationData (w : World) (d : ApplicationData) : World :=
  { w with application := d }

/-- Records one call of `fetch`. -/
def World.sent (w : World) (req : Request) : World :=
  { w with network := w.network ++ [req] }

/-! ## Event handlers

A handler is a function of the state that gives the state after it and
either a normal completion or the exception that escaped it.  State changes
made before a `throw` stay made.  The call `e.preventDefault()` that opens
each submit handler touches nothing of this state and is left out. -/

/-- A computation inside an event handler. -/
def Handler (α : Type) : Type := World → Except JsError α × World

/-- Normal completion with a value. -/
def Handler.pure {α : Type} (a : α) : Handler α :=
  fun w => (.ok a, w)

/-- Sequencing: an exception in the first part skips the second. -/
def Handler.bind {α β : Type} (m : Handler α) (f : α → Handler β) : Handler β :=
  fun w =>
    match m w with
    | (.ok a, w1) => f a w1
    | (.error e, w1) => (.error e, w1)

instance : Monad Handler where
  pure := Handler.pure
  bind := Handler.bind

/-- The statement `throw e`. -/
def throwJs {α : Type} (e : JsError) : Handler α :=
  fun w => (.error e, w)

/-- The statement `try { body } catch (error) { handler error }`. -/
def tryCatchJs {α : Type} (body : Handler α) (handler : JsError → Handler α) : Handler α :=
  fun w =>
    match body w with
    | (.ok a, w1) => (.ok a, w1)
    | (.error e, w1) => handler e w1

/-- An expression that may throw, evaluated inside a handler. -/
def evalJs {α : Type} (x : Except JsError α) : Handler α :=
  fun w => (x, w)

/-- The expression `await fetch(...)`: the call is made, and the promise
settles with a response or is rejected. -/
def awaitFetch (fetch : Fetch) (req : Request) : Handler Response :=
  fun w => (fetch req, w.sent req)

/-- The call `setAlert(a)`. -/
def setAlert (a : AlertState) : Handler Unit :=
  fun w => (.ok (), w.setAlert a)

/-- The call `setToken(t)`. -/
def setToken (t : JsValue) : Handler Unit :=
  fun w => (.ok (), w.setToken t)

/-- The call `setIsLoggedIn(b)`. -/
def setIsLoggedIn (b : Bool) : Handler Unit :=
  fun w => (.ok (), w.setIsLoggedIn b)

/-- The call `setView(v)`. -/
def setView (v : View) : Handler Unit :=
  fun w => (.ok (), w.setView v)

/-- The call `setApplicationData(d)`. -/
def setApplicationData (d : ApplicationData) : Handler Unit :=
  fun w => (.ok (), w.setApplicationData d)

/-- The fallback message of `handleRegister`. -/
def registerFallback : String := "Erreur lors de l'inscription"

/-- The fallback message of `handleLogin`. -/
def loginFallback : String := "Email ou mot de passe incorrect."

/-- The fallback message of `ApplicationForm.handleSubmit`. -/
def submitFallback : String := "Erreur lors de l'envoi."

/-- The arguments of the `fetch` call of `handleRegister`. -/
def registerRequest (d : RegisterData) : Request :=
  { url := API_URL ++ "/api/auth/register",
    method := "POST",
    headers := [("Content-Type", "application/json")],
    body := .json [("nom", d.nom), ("email", d.email), ("password", d.password)] }

/-- The arguments of the `fetch` call of `handleLogin`. -/
def loginRequest (d : LoginData) : Request :=
  { url := API_URL ++ "/api/auth/login",
    method := "POST",
    headers := [("Content-Type", "application/json")],
    body := .json [("email", d.email), ("password", d.password)] }

/-- The handler `handleRegister` of `AuthForm`, run on the state in which the
form was rendered. -/
def handleRegister (fetch : Fetch) : Handler Unit := fun w =>
  let registerData := w.auth.registerData
  (if registerData.password ≠ registerData.confirmPassword then
    setAlert { message := "Les mots de passe ne correspondent pas.", type := .error }
  else
    tryCatchJs
      (do
        let response ← awaitFetch fetch (registerRequest registerData)
        let data ← evalJs response.json
        if !response.ok then
          let m ← evalJs (data.getProp "message")
          let err ← evalJs (newError (jsOr m (.ofJson (.str registerFallback))))
          throwJs err
        setAlert { message := "Inscription réussie ! Vous pouvez maintenant vous connecter.",
                   type := .success }
        setView .login)
      (fun error => setAlert { message := error.message, type := .error })) w

/-- The handler `handleLogin` of `AuthForm`, run on the state in which the
form was rendered. -/
def handleLogin (fetch : Fetch) : Handler Unit := fun w =>
  let loginData := w.auth.loginData
  (tryCatchJs
    (do
      let response ← awaitFetch fetch (loginRequest loginData)
      let data ← evalJs response.json
      if !response.ok then
        let m ← evalJs (data.getProp "message")
        let err ← evalJs (newError (jsOr m (.ofJson (.str loginFallback))))
        throwJs err
      let token ← evalJs (data.getProp "token")
      setToken token
      setIsLoggedIn true)
    (fun error => setAlert { message := error.message, type := .error })) w

/-- What `FormData.append` stores for a value of the `cv` member: a file as
it is, anything else converted to text. -/
def CvValue.toEntry : CvValue → FormDataEntryValue
  | .null => .text "null"
  | .undefined => .text "undefined"
  | .file f => .file f

/-- The `FormData` built by `handleSubmit`: one `append` per key of
`applicationData`, in the order of `Object.keys`. -/
def buildFormData (d : ApplicationData) : List (String × FormDataEntryValue) :=
  [("telephone", .text d.telephone), ("poste", .text d.poste),
   ("motivation", .text d.motivation), ("cv", d.cv.toEntry)]

/-- The template literal that gives the `Authorization` header. -/
def bearer (token : JsValue) : Except JsError String :=
  match token.toJsString with
  | .error e => .error e
  | .ok t => .ok ("Bearer " ++ t)

/-- The arguments of the `fetch` call of `handleSubmit`. -/
def submitRequest (authorization : String) (formData : List (String × FormDataEntryValue)) :
    Request :=
  { url := API_URL ++ "/api/candidatures",
    method := "POST",
    headers := [("Authorization", authorization)],
    body := .formData formData }

/-- The handler `handleSubmit` of `ApplicationForm`, run on the state in
which the form was rendered; `token` is the prop passed by `App`. -/
def handleSubmit (fetch : Fetch) : Handler Unit := fun w =>
  let applicationData := w.application
  let token := w.app.token
  let formData := buildFormData applicationData
  (tryCatchJs
    (do
      let authorization ← evalJs (bearer token)
      let response ← awaitFetch fetch (submitRequest authorization formData)
      let data ← evalJs response.json
      if !response.ok then
        let m ← evalJs (data.getProp "message")
        let err ← evalJs (newError (jsOr m (.ofJson (.str submitFallback))))
        throwJs err
      setAlert { message := "Votre candidature a été envoyée avec succès ! Nous vous remercions.",
                 type := .success }
      setApplicationData
        { telephone := "", poste := "Agent Commercial / Réceptionniste", motivation := "",
          cv := .null })
    (fun error => setAlert { message := error.message, type := .error })) w

/-- The handler `handleLogout` of `App`. -/
def handleLogout : Handler Unit := do
  setIsLoggedIn false
  setToken (.ofJson .null)
  setAlert { message := "Vous avez été déconnecté.", type := .success }

/-- The callback `clearAlert` of `App`. -/
def clearAlert : Handler Unit :=
  setAlert { message := "", type := .success }

/-! ## Rendering -/

/-- What the `Alert` component returns: nothing, or the banner with its text
and style. -/
inductive Banner where
  | nothing
  | shown (message : String) (type : AlertType)
deriving DecidableEq, Repr

/-- The component `Alert`: an empty message renders nothing. -/
def Alert (message : String) (type : AlertType) : Banner :=
  if message = "" then .nothing else .shown message type

/-- The form that `App` renders below the alert. -/
inductive Page where
  | applicationForm
  | authForm
deriving DecidableEq, Repr

/-- The choice `isLoggedIn ? <ApplicationForm/> : <AuthForm/>` in `App`. -/
def renderedForm (w : World) : Page :=
  if w.app.isLoggedIn then .applicationForm else .authForm

/-- The target of a change event of the application form: one of the three
text controls with its new value, or the file input with its `files`. -/
inductive ChangeTarget where
  | telephone (value : String)
  | poste (value : String)
  | motivation (value : String)
  | cv (files : List File)
deriving DecidableEq, Repr

/-- The handler `handleChange` of `ApplicationForm`: the member named by the
control is replaced by `files[0]` for the file input and by `value` for the
others. -/
def handleChange (target : ChangeTarget) : Handler Unit := fun w =>
  let applicationData := w.application
  (match target with
  | .telephone value => setApplicationData { applicationData with telephone := value }
  | .poste value => setApplicationData { applicationData with poste := value }
  | .motivation value => setApplicationData { applicationData with motivation := value }
  | .cv files =>
    match files with
    | f :: _ => setApplicationData { applicationData with cv := .file f }
    | [] => setApplicationData { applicationData with cv := .undefined }) w

/-! ## The three submit handlers side by side -/

/-- The three handlers that submit a form over the network. -/
inductive SubmitHandler where
  | login
  | register
  | application
deriving DecidableEq, Repr

/-- The handler itself. -/
def SubmitHandler.run : SubmitHandler → Fetch → Handler Unit
  | .login => handleLogin
  | .register => handleRegister
  | .application => handleSubmit

/-- The fallback message of the handler. -/
def SubmitHandler.fallback : SubmitHandler → String
  | .login => loginFallback
  | .register => registerFallback
  | .application => submitFallback

/-- The `fetch` call the handler makes from a state, when it reaches one:
`handleRegister` stops before it on a password mismatch, and `handleSubmit`
when the token cannot be put into the header. -/
def SubmitHandler.request : SubmitHandler → World → Option Request
  | .login, w => some (loginRequest w.auth.loginData)
  | .register, w =>
    if w.auth.registerData.password ≠ w.auth.registerData.confirmPassword then none
    else some (registerRequest w.auth.registerData)
  | .application, w =>
    match bearer w.app.token with
    | .ok authorization => some (submitRequest authorization (buildFormData w.application))
    | .error _ => none

/-- The failing outcomes of a network call: the request is rejected, the
body of the response cannot be parsed, or the status is outside 200 to 299. -/
def failedOutcome (out : Except JsError Response) : Bool :=
  match out with
  | .error _ => true
  | .ok r =>
    match r.json with
    | .error _ => true
    | .ok _ => !r.ok

/-- The error that reaches `catch` after a failing outcome. -/
def thrownError (fallback : String) (out : Except JsError Response) : JsError :=
  match out with
  | .error e => e
  | .ok r =>
    match r.json with
    | .error e => e
    | .ok data =>
      match data.getProp "message" with
      | .error e => e
      | .ok m =>
        match newError (jsOr m (.ofJson (.str fallback))) with
        | .error e => e
        | .ok err => err

/-! ## The specification's reading of a failure message -/

/-- The message a response gives, in the specification's words a failure
response "with JSON" holding a `message`: the text under `message` of a body
that is a JSON object. -/
def serverMessage (out : Except JsError Response) : Option String :=
  match out with
  | .error _ => none
  | .ok r =>
    match r.json with
    | .ok (.obj members) =>
      match lastMember members "message" with
      | some (.str m) => some m
      | _ => none
    | _ => none

/-- The message the specification expects in the error alert: "the
server-provided message preferred over a fallback string". -/
def specFailureMessage (fallback : String) (out : Except JsError Response) : String :=
  match serverMessage out with
  | some m => m
  | none => fallback

/-! ## Concrete inputs -/

/-- The rejection of `fetch` when the server cannot be reached. -/
def networkDown : JsError := ⟨"TypeError", "Failed to fetch"⟩

/-- The rejection of `response.json()` on an empty body. -/
def emptyBody : JsError := ⟨"SyntaxError", "Unexpected end of JSON input"⟩

/-- A network on which every request is rejected. -/
def fetchRejects : Fetch := fun _ => .error networkDown

/-- A network that answers every request with this response. -/
def fetchAnswers (r : Response) : Fetch := fun _ => .ok r

/-- The login form filled in as in the example scenario. -/
def loginWorld : World :=
  { World.initial with
    auth := { AuthFormState.initial with loginData := { email := "a@b.com", password := "x" } } }

/-- The response of the example scenario: status 200 and a token. -/
def tokenResponse : Response :=
  { status := 200, json := .ok (.obj [("token", .str "t1")]) }

/-- The registration view with two different passwords typed. -/
def mismatchWorld : World :=
  { World.initial with
    auth := { AuthFormState.initial with
      view := .register,
      registerData := { nom := "Amel", email := "a@b.com", password := "secret",
                        confirmPassword := "secrex" } } }

/-- The registration view with the same password typed twice. -/
def registerWorld : World :=
  { World.initial with
    auth := { AuthFormState.initial with
      view := .register,
      registerData := { nom := "Amel", email := "a@b.com", password := "secret",
                        confirmPassword := "secret" } } }

/-- A résumé file. -/
def cvFile : File := { name := "cv.pdf", type := "application/pdf", bytes := [37, 80, 68, 70] }

/-- A logged-in page with the application form filled in. -/
def filledWorld : World :=
  { World.initial with
    app := { isLoggedIn := true, token := .ofJson (.str "t1"),
             alert := { message := "", type := .success } },
    application := { telephone := "0550123456", poste := "Secrétaire",
                     motivation := "Bonjour", cv := .file cvFile } }

/-- A response with status 401 and a message from the server. -/
def refusedResponse : Response :=
  { status := 401, json := .ok (.obj [("message", .str "Compte inconnu")]) }

/-- A response with status 500 and an empty body. -/
def serverErrorResponse : Response := { status := 500, json := .error emptyBody }

/-- A response with status 201 and an empty body. -/
def createdResponse : Response := { status := 201, json := .error emptyBody }

/-- A response with status 200 and a JSON body without a token. -/
def acceptedResponse : Response := { status := 200, json := .ok (.obj []) }

/-- The page after a successful submission of `filledWorld` and after the
phone number and the motivation text were typed again. -/
def resubmitWorld : World :=
  (handleChange (.motivation "Bonjour")
    (handleChange (.telephone "0550123456")
      (handleSubmit (fetchAnswers acceptedResponse) filledWorld).2).2).2


/-! ## Conversion and failure messages -/

theorem toJsString_str (s : String) : (JsValue.ofJson (.str s)).toJsString = .ok s := by
  simp [JsValue.toJsString, Json.toJsString]

theorem newError_str (s : String) : newError (.ofJson (.str s)) = .ok ⟨"Error", s⟩ := by
  simp [newError, toJsString_str]

theorem jsOr_falsy (v fallback : JsValue) (h : v.truthy = false) : jsOr v fallback = fallback := by
  simp [jsOr, h]

theorem jsOr_text (m : String) (fallback : JsValue) (h : m ≠ "") :
    jsOr (.ofJson (.str m)) fallback = .ofJson (.str m) := by
  simp [jsOr, JsValue.truthy, h]

theorem thrownError_rejected (fallback : String) (e : JsError) :
    thrownError fallback (.error e) = e := rfl

theorem thrownError_unparsed (fallback : String) (r : Response) (e : JsError)
    (h : r.json = .error e) : thrownError fallback (.ok r) = e := by
  simp [thrownError, h]

theorem thrownError_server (fallback : String) (r : Response) (data : Json) (m : String)
    (hjson : r.json = .ok data) (hm : data.getProp "message" = .ok (.ofJson (.str m)))
    (hne : m ≠ "") : (thrownError fallback (.ok r)).message = m := by
  simp [thrownError, hjson, hm, jsOr_text m _ hne, newError_str]

theorem thrownError_fallback (fallback : String) (r : Response) (data : Json) (v : JsValue)
    (hjson : r.json = .ok data) (hm : data.getProp "message" = .ok v)
    (hv : v.truthy = false) : (thrownError fallback (.ok r)).message = fallback := by
  simp [thrownError, hjson, hm, jsOr_falsy v _ hv, newError_str]

/-! ## What each handler does after a failing outcome -/

theorem handleLogin_failed (fetch : Fetch) (w : World)
    (hfail : failedOutcome (fetch (loginRequest w.auth.loginData)) = true) :
    handleLogin fetch w =
      (.ok (), (w.sent (loginRequest w.auth.loginData)).setAlert
        { message := (thrownError loginFallback (fetch (loginRequest w.auth.loginData))).message,
          type := .error }) := by
  generalize hout : fetch (loginRequest w.auth.loginData) = out at hfail
  cases out with
  | error e =>
    simp [handleLogin, tryCatchJs, awaitFetch, evalJs, throwJs, setAlert, bind, Handler.bind,
      pure, Handler.pure,
      hout, thrownError]
  | ok r =>
    cases hj : r.json with
    | error e =>
      simp [handleLogin, tryCatchJs, awaitFetch, evalJs, throwJs, setAlert, bind, Handler.bind,
        pure, Handler.pure,
        hout, hj, thrownError]
    | ok data =>
      have hok : r.ok = false := by simpa [failedOutcome, hj] using hfail
      cases hm : data.getProp "message" with
      | error e =>
        simp [handleLogin, tryCatchJs, awaitFetch, evalJs, throwJs, setAlert, bind,
          Handler.bind, pure, Handler.pure, hout, hj, hok, hm, thrownError]
      | ok m =>
        cases hn : newError (jsOr m (.ofJson (.str loginFallback))) with
        | error e =>
          simp [handleLogin, tryCatchJs, awaitFetch, evalJs, throwJs, setAlert, bind,
            Handler.bind, pure, Handler.pure, hout, hj, hok, hm, hn, thrownError]
        | ok err =>
          simp [handleLogin, tryCatchJs, awaitFetch, evalJs, throwJs, setAlert, bind,
            Handler.bind, pure, Handler.pure, hout, hj, hok, hm, hn, thrownError]

theorem handleRegister_failed (fetch : Fetch) (w : World)
    (hpw : w.auth.registerData.password = w.auth.registerData.confirmPassword)
    (hfail : failedOutcome (fetch (registerRequest w.auth.registerData)) = true) :
    handleRegister fetch w =
      (.ok (), (w.sent (registerRequest w.auth.registerData)).setAlert
        { message :=
            (thrownError registerFallback (fetch (registerRequest w.auth.registerData))).message,
          type := .error }) := by
  generalize hout : fetch (registerRequest w.auth.registerData) = out at hfail
  cases out with
  | error e =>
    simp [handleRegister, tryCatchJs, awaitFetch, evalJs, throwJs, setAlert, bind, Handler.bind,
      pure, Handler.pure,
      hpw, hout, thrownError]
  | ok r =>
    cases hj : r.json with
    | error e =>
      simp [handleRegister, tryCatchJs, awaitFetch, evalJs, throwJs, setAlert, bind,
        Handler.bind, pure, Handler.pure, hpw, hout, hj, thrownError]
    | ok data =>
      have hok : r.ok = false := by simpa [failedOutcome, hj] using hfail
      cases hm : data.getProp "message" with
      | error e =>
        simp [handleRegister, tryCatchJs, awaitFetch, evalJs, throwJs, setAlert, bind,
          Handler.bind, pure, Handler.pure, hpw, hout, hj, hok, hm, thrownError]
      | ok m =>
        cases hn : newError (jsOr m (.ofJson (.str registerFallback))) with
        | error e =>
          simp [handleRegister, tryCatchJs, awaitFetch, evalJs, throwJs, setAlert, bind,
            Handler.bind, pure, Handler.pure, hpw, hout, hj, hok, hm, hn, thrownError]
        | ok err =>
          simp [handleRegister, tryCatchJs, awaitFetch, evalJs, throwJs, setAlert, bind,
            Handler.bind, pure, Handler.pure, hpw, hout, hj, hok, hm, hn, thrownError]

theorem handleSubmit_failed (fetch : Fetch) (w : World) (authorization : String)
    (hauth : bearer w.app.token = .ok authorization)
    (hfail : failedOutcome
      (fetch (submitRequest authorization (buildFormData w.application))) = true) :
    handleSubmit fetch w =
      (.ok (), (w.sent (submitRequest authorization (buildFormData w.application))).setAlert
        { message := (thrownError submitFallback
            (fetch (submitRequest authorization (buildFormData w.application)))).message,
          type := .error }) := by
  generalize hout : fetch (submitRequest authorization (buildFormData w.application)) = out
    at hfail
  cases out with
  | error e =>
    simp [handleSubmit, tryCatchJs, awaitFetch, evalJs, throwJs, setAlert, bind, Handler.bind,
      pure, Handler.pure,
      hauth, hout, thrownError]
  | ok r =>
    cases hj : r.json with
    | error e =>
      simp [handleSubmit, tryCatchJs, awaitFetch, evalJs, throwJs, setAlert, bind,
        Handler.bind, pure, Handler.pure, hauth, hout, hj, thrownError]
    | ok data =>
      have hok : r.ok = false := by simpa [failedOutcome, hj] using hfail
      cases hm : data.getProp "message" with
      | error e =>
        simp [handleSubmit, tryCatchJs, awaitFetch, evalJs, throwJs, setAlert, bind,
          Handler.bind, pure, Handler.pure, hauth, hout, hj, hok, hm, thrownError]
      | ok m =>
        cases hn : newError (jsOr m (.ofJson (.str submitFallback))) with
        | error e =>
          simp [handleSubmit, tryCatchJs, awaitFetch, evalJs, throwJs, setAlert, bind,
            Handler.bind, pure, Handler.pure, hauth, hout, hj, hok, hm, hn, thrownError]
        | ok err =>
          simp [handleSubmit, tryCatchJs, awaitFetch, evalJs, throwJs, setAlert, bind,
            Handler.bind, pure, Handler.pure, hauth, hout, hj, hok, hm, hn, thrownError]

/-- After a failing outcome each submit handler completes normally, has made
exactly its one request, and has replaced the alert by an error alert that
carries the message of the error caught. -/
theorem submitHandler_failed (h : SubmitHandler) (fetch : Fetch) (w : World) (req : Request)
    (hreq : h.request w = some req) (hfail : failedOutcome (fetch req) = true) :
    h.run fetch w =
      (.ok (), (w.sent req).setAlert
        { message := (thrownError h.fallback (fetch req)).message, type := .error }) := by
  cases h with
  | login =>
    simp only [SubmitHandler.request, Option.some.injEq] at hreq
    subst hreq
    exact handleLogin_failed fetch w hfail
  | register =>
    by_cases hpw : w.auth.registerData.password = w.auth.registerData.confirmPassword
    · simp only [SubmitHandler.request, hpw, ne_eq, not_true_eq_false, if_false,
        Option.some.injEq] at hreq
      subst hreq
      exact handleRegister_failed fetch w hpw hfail
    · simp [SubmitHandler.request, hpw] at hreq
  | application =>
    cases hauth : bearer w.app.token with
    | error e => simp [SubmitHandler.request, hauth] at hreq
    | ok authorization =>
      simp only [SubmitHandler.request, hauth, Option.some.injEq] at hreq
      subst hreq
      exact handleSubmit_failed fetch w authorization hauth hfail

theorem handleSubmit_network (fetch : Fetch) (w : World) (authorization : String)
    (hauth : bearer w.app.token = .ok authorization) :
    (handleSubmit fetch w).2.network =
      w.network ++ [submitRequest authorization (buildFormData w.application)] := by
  cases hfail : failedOutcome (fetch (submitRequest authorization (buildFormData w.application)))
  · cases hout : fetch (submitRequest authorization (buildFormData w.application)) with
    | error e => simp [failedOutcome, hout] at hfail
    | ok r =>
      cases hj : r.json with
      | error e => simp [failedOutcome, hout, hj] at hfail
      | ok data =>
        have hok : r.ok = true := by simpa [failedOutcome, hout, hj] using hfail
        simp [handleSubmit, tryCatchJs, awaitFetch, evalJs, setAlert, setApplicationData, bind,
          Handler.bind, pure, Handler.pure, hauth, hout, hj, hok, World.sent, World.setAlert,
          World.setApplicationData]
  · rw [handleSubmit_failed fetch w authorization hauth hfail]
    simp [World.sent, World.setAlert]

/-! ## The alert banner -/

/-- The component `Alert` renders nothing for the empty message. -/
theorem Alert_empty (type : AlertType) : Alert "" type = .nothing := by
  simp [Alert]

/-- The callback `clearAlert` empties the message, after which `Alert`
renders nothing. -/
theorem clearAlert_empties (w : World) :
    (clearAlert w).2.app.alert.message = "" ∧
    Alert (clearAlert w).2.app.alert.message (clearAlert w).2.app.alert.type = .nothing := by
  simp [clearAlert, setAlert, World.setAlert, Alert]

/-! ## Registration -/

/-- C1: when the two passwords of the registration form differ,
`handleRegister` completes without any `fetch` call, sets the error alert
"Les mots de passe ne correspondent pas.", and leaves the state of the
authentication form (the view included), the login flag and the token as
they were. -/
theorem handleRegister_mismatch (fetch : Fetch) (w : World)
    (h : w.auth.registerData.password ≠ w.auth.registerData.confirmPassword) :
    (handleRegister fetch w).1 = .ok () ∧
    (handleRegister fetch w).2.network = w.network ∧
    (handleRegister fetch w).2.app.alert =
      { message := "Les mots de passe ne correspondent pas.", type := .error } ∧
    (handleRegister fetch w).2.auth.view = w.auth.view ∧
    (handleRegister fetch w).2.auth = w.auth ∧
    (handleRegister fetch w).2.app.isLoggedIn = w.app.isLoggedIn ∧
    (handleRegister fetch w).2.app.token = w.app.token := by
  simp [handleRegister, h, setAlert, World.setAlert]

/-- Witness of C1 on the form with passwords "secret" and "secrex". -/
theorem handleRegister_mismatch_witness :
    mismatchWorld.auth.registerData.password ≠ mismatchWorld.auth.registerData.confirmPassword ∧
    (handleRegister fetchRejects mismatchWorld).2.network = [] ∧
    (handleRegister fetchRejects mismatchWorld).2.app.alert.type = .error ∧
    (handleRegister fetchRejects mismatchWorld).2.auth.view = .register :=
  ⟨by decide,
   (handleRegister_mismatch fetchRejects mismatchWorld (by decide)).2.1,
   by rw [(handleRegister_mismatch fetchRejects mismatchWorld (by decide)).2.2.1],
   (handleRegister_mismatch fetchRejects mismatchWorld (by decide)).2.2.2.1⟩

/-- Counterexample to C6 as stated: registration with matching passwords
answered with status 201 and an empty body ends with an error alert and the
view still on `register`. -/
theorem handleRegister_created_empty_body :
    registerWorld.auth.registerData.password = registerWorld.auth.registerData.confirmPassword ∧
    createdResponse.ok = true ∧
    (handleRegister (fetchAnswers createdResponse) registerWorld).2.app.alert =
      { message := "Unexpected end of JSON input", type := .error } ∧
    (handleRegister (fetchAnswers createdResponse) registerWorld).2.auth.view = .register := by
  decide

/-- C6 (amended): when the passwords match and the response has a 2xx status
and a body that parses as JSON, `handleRegister` completes, makes its one
request, sets the success alert, switches the view to `login`, and leaves the
login flag and the token as they were. -/
theorem handleRegister_success (fetch : Fetch) (w : World) (r : Response) (data : Json)
    (hpw : w.auth.registerData.password = w.auth.registerData.confirmPassword)
    (hfetch : fetch (registerRequest w.auth.registerData) = .ok r)
    (hok : r.ok = true) (hjson : r.json = .ok data) :
    (handleRegister fetch w).1 = .ok () ∧
    (handleRegister fetch w).2.network = w.network ++ [registerRequest w.auth.registerData] ∧
    (handleRegister fetch w).2.app.alert =
      { message := "Inscription réussie ! Vous pouvez maintenant vous connecter.",
        type := .success } ∧
    (handleRegister fetch w).2.auth.view = .login ∧
    (handleRegister fetch w).2.app.isLoggedIn = w.app.isLoggedIn ∧
    (handleRegister fetch w).2.app.token = w.app.token := by
  simp [handleRegister, tryCatchJs, awaitFetch, evalJs, setAlert, setView, bind, Handler.bind,
    pure, Handler.pure,
    hpw, hfetch, hok, hjson, World.sent, World.setAlert, World.setView]

/-- Witness of C6 (amended): status 200 with the body of an empty object. -/
theorem handleRegister_success_witness :
    acceptedResponse.ok = true ∧
    (handleRegister (fetchAnswers acceptedResponse) registerWorld).2.auth.view = .login ∧
    (handleRegister (fetchAnswers acceptedResponse) registerWorld).2.app.isLoggedIn = false :=
  ⟨by decide,
   (handleRegister_success (fetchAnswers acceptedResponse) registerWorld acceptedResponse
      (.obj []) (by decide) rfl (by decide) rfl).2.2.2.1,
   (handleRegister_success (fetchAnswers acceptedResponse) registerWorld acceptedResponse
      (.obj []) (by decide) rfl (by decide) rfl).2.2.2.2.1⟩

/-! ## Login -/

/-- C2: when the response to the login request is HTTP ok and its JSON body
has the token `t`, `handleLogin` completes, sets the login flag, stores `t`
as the token, leaves the alert as it was, and the form rendered is the
application form. -/
theorem handleLogin_success (fetch : Fetch) (w : World) (r : Response) (data : Json)
    (t : JsValue)
    (hfetch : fetch (loginRequest w.auth.loginData) = .ok r)
    (hok : r.ok = true) (hjson : r.json = .ok data)
    (htoken : data.getProp "token" = .ok t) :
    (handleLogin fetch w).1 = .ok () ∧
    (handleLogin fetch w).2.app.isLoggedIn = true ∧
    (handleLogin fetch w).2.app.token = t ∧
    (handleLogin fetch w).2.app.alert = w.app.alert ∧
    renderedForm (handleLogin fetch w).2 = .applicationForm := by
  simp [handleLogin, tryCatchJs, awaitFetch, evalJs, throwJs, setToken, setIsLoggedIn,
    bind, Handler.bind, pure, Handler.pure, hfetch, hok, hjson, htoken,
    World.setToken, World.setIsLoggedIn, World.sent, renderedForm]

/-- Witness of C2, the example scenario: credentials a@b.com and x, status
200, body with token "t1"; before the submission nobody is logged in and no
alert is shown, and neither is one shown after it. -/
theorem handleLogin_success_witness :
    loginWorld.app.isLoggedIn = false ∧
    loginWorld.auth.loginData = { email := "a@b.com", password := "x" } ∧
    tokenResponse.ok = true ∧
    (handleLogin (fetchAnswers tokenResponse) loginWorld).2.app.isLoggedIn = true ∧
    (handleLogin (fetchAnswers tokenResponse) loginWorld).2.app.token = .ofJson (.str "t1") ∧
    (handleLogin (fetchAnswers tokenResponse) loginWorld).2.app.alert =
      { message := "", type := .success } ∧
    renderedForm (handleLogin (fetchAnswers tokenResponse) loginWorld).2 = .applicationForm :=
  ⟨rfl, rfl, by decide,
   (handleLogin_success (fetchAnswers tokenResponse) loginWorld tokenResponse
      (.obj [("token", .str "t1")]) (.ofJson (.str "t1")) rfl (by decide) rfl rfl).2.1,
   (handleLogin_success (fetchAnswers tokenResponse) loginWorld tokenResponse
      (.obj [("token", .str "t1")]) (.ofJson (.str "t1")) rfl (by decide) rfl rfl).2.2.1,
   (handleLogin_success (fetchAnswers tokenResponse) loginWorld tokenResponse
      (.obj [("token", .str "t1")]) (.ofJson (.str "t1")) rfl (by decide) rfl rfl).2.2.2.1,
   (handleLogin_success (fetchAnswers tokenResponse) loginWorld tokenResponse
      (.obj [("token", .str "t1")]) (.ofJson (.str "t1")) rfl (by decide) rfl rfl).2.2.2.2⟩

/-- Counterexample to C3 as stated: a login answered with status 500 and an
empty body gives no server message, yet the alert shows the message of the
parse error and not the fallback. -/
theorem handleLogin_server_error_empty_body :
    serverErrorResponse.ok = false ∧
    serverMessage (.ok serverErrorResponse) = none ∧
    specFailureMessage loginFallback (.ok serverErrorResponse) =
      "Email ou mot de passe incorrect." ∧
    (handleLogin (fetchAnswers serverErrorResponse) loginWorld).2.app.alert =
      { message := "Unexpected end of JSON input", type := .error } ∧
    (handleLogin (fetchAnswers serverErrorResponse) loginWorld).2.app.alert.message ≠
      specFailureMessage loginFallback (.ok serverErrorResponse) := by
  decide

/-- C3 (amended): when the response to the login request is non-2xx,
`handleLogin` completes, leaves the login flag and the token as they were and
sets an error alert.  When the body parses as JSON the message is exactly the
server's `message` if that is a non-empty string, and the fallback
"Email ou mot de passe incorrect." if the body, not being `null`, has no
`message` or a falsy one; when the body does not parse, the message is that
of the parse error. -/
theorem handleLogin_failure (fetch : Fetch) (w : World) (r : Response)
    (hfetch : fetch (loginRequest w.auth.loginData) = .ok r) (hok : r.ok = false) :
    (handleLogin fetch w).1 = .ok () ∧
    (handleLogin fetch w).2.app.isLoggedIn = w.app.isLoggedIn ∧
    (handleLogin fetch w).2.app.token = w.app.token ∧
    (handleLogin fetch w).2.app.alert.type = .error ∧
    (∀ data m, r.json = .ok data → data.getProp "message" = .ok (.ofJson (.str m)) → m ≠ "" →
      (handleLogin fetch w).2.app.alert.message = m) ∧
    (∀ data v, r.json = .ok data → data.getProp "message" = .ok v → v.truthy = false →
      (handleLogin fetch w).2.app.alert.message = "Email ou mot de passe incorrect.") ∧
    (∀ e, r.json = .error e → (handleLogin fetch w).2.app.alert.message = e.message) := by
  have hfail : failedOutcome (fetch (loginRequest w.auth.loginData)) = true := by
    cases hj : r.json <;> simp [failedOutcome, hfetch, hj, hok]
  rw [handleLogin_failed fetch w hfail, hfetch]
  refine ⟨rfl, rfl, rfl, rfl, ?_, ?_, ?_⟩
  · intro data m hj hm hne
    exact thrownError_server loginFallback r data m hj hm hne
  · intro data v hj hm hv
    exact thrownError_fallback loginFallback r data v hj hm hv
  · intro e hj
    simp [World.setAlert, thrownError_unparsed loginFallback r e hj]

/-- Witness of C3 (amended): status 401 with the message "Compte inconnu". -/
theorem handleLogin_failure_witness :
    refusedResponse.ok = false ∧
    (handleLogin (fetchAnswers refusedResponse) loginWorld).2.app.isLoggedIn = false ∧
    (handleLogin (fetchAnswers refusedResponse) loginWorld).2.app.alert.message =
      "Compte inconnu" :=
  ⟨by decide,
   (handleLogin_failure (fetchAnswers refusedResponse) loginWorld refusedResponse rfl
      (by decide)).2.1,
   (handleLogin_failure (fetchAnswers refusedResponse) loginWorld refusedResponse rfl
      (by decide)).2.2.2.2.1 (.obj [("message", .str "Compte inconnu")]) "Compte inconnu"
      rfl rfl (by decide)⟩

/-! ## Logout -/

/-- C4: from every state `handleLogout` completes with the login flag false,
the token `null` and the success alert "Vous avez été déconnecté." in place
of whatever alert there was, and makes no `fetch` call. -/
theorem handleLogout_clears (w : World) :
    (handleLogout w).1 = .ok () ∧
    (handleLogout w).2.app.isLoggedIn = false ∧
    (handleLogout w).2.app.token = .ofJson .null ∧
    (handleLogout w).2.app.alert =
      { message := "Vous avez été déconnecté.", type := .success } ∧
    (handleLogout w).2.network = w.network := by
  simp [handleLogout, setAlert, setToken, setIsLoggedIn, bind, Handler.bind, pure, Handler.pure,
    World.setToken, World.setIsLoggedIn, World.setAlert]

/-! ## Application form -/

/-- Counterexample to C5 as stated: a submission answered with status 201
and an empty body ends with an error alert and the form still filled in. -/
theorem handleSubmit_created_empty_body :
    createdResponse.ok = true ∧
    (handleSubmit (fetchAnswers createdResponse) filledWorld).2.app.alert =
      { message := "Unexpected end of JSON input", type := .error } ∧
    (handleSubmit (fetchAnswers createdResponse) filledWorld).2.application =
      { telephone := "0550123456", poste := "Secrétaire", motivation := "Bonjour",
        cv := .file cvFile } ∧
    (handleSubmit (fetchAnswers createdResponse) filledWorld).2.application ≠
      ApplicationData.initial := by
  decide

/-- C5 (amended): when the response to the application request is HTTP ok and
its body parses as JSON, `handleSubmit` completes, resets the form state to
its initial value (telephone "", poste "Agent Commercial / Réceptionniste",
motivation "", cv `null`), sets the success alert, and leaves the login flag
and the token as they were. -/
theorem handleSubmit_success (fetch : Fetch) (w : World) (authorization : String)
    (r : Response) (data : Json)
    (hauth : bearer w.app.token = .ok authorization)
    (hfetch : fetch (submitRequest authorization (buildFormData w.application)) = .ok r)
    (hok : r.ok = true) (hjson : r.json = .ok data) :
    (handleSubmit fetch w).1 = .ok () ∧
    (handleSubmit fetch w).2.application =
      { telephone := "", poste := "Agent Commercial / Réceptionniste", motivation := "",
        cv := .null } ∧
    (handleSubmit fetch w).2.application = ApplicationData.initial ∧
    (handleSubmit fetch w).2.app.alert =
      { message := "Votre candidature a été envoyée avec succès ! Nous vous remercions.",
        type := .success } ∧
    (handleSubmit fetch w).2.app.isLoggedIn = w.app.isLoggedIn ∧
    (handleSubmit fetch w).2.app.token = w.app.token := by
  simp [handleSubmit, tryCatchJs, awaitFetch, evalJs, setAlert, setApplicationData, bind,
    Handler.bind, pure, Handler.pure, hauth, hfetch, hok, hjson, World.sent, World.setAlert,
    World.setApplicationData, ApplicationData.initial]

/-- Witness of C5 (amended): the filled form answered with status 200 and the
body of an empty object. -/
theorem handleSubmit_success_witness :
    acceptedResponse.ok = true ∧
    filledWorld.application ≠ ApplicationData.initial ∧
    (handleSubmit (fetchAnswers acceptedResponse) filledWorld).2.application =
      ApplicationData.initial ∧
    (handleSubmit (fetchAnswers acceptedResponse) filledWorld).2.app.isLoggedIn = true :=
  ⟨by decide, by decide,
   (handleSubmit_success (fetchAnswers acceptedResponse) filledWorld "Bearer t1"
      acceptedResponse (.obj []) rfl rfl (by decide) rfl).2.2.1,
   (handleSubmit_success (fetchAnswers acceptedResponse) filledWorld "Bearer t1"
      acceptedResponse (.obj []) rfl rfl (by decide) rfl).2.2.2.2.1⟩

/-- C9 (evaluation at the failing input): after one successful submission
the form state has cv `null`; with the phone number and the motivation typed
again, `handleSubmit` still sends a request to the application endpoint,
whose `cv` entry is the text "null". -/
theorem handleSubmit_null_cv_sends :
    resubmitWorld.application =
      { telephone := "0550123456", poste := "Agent Commercial / Réceptionniste",
        motivation := "Bonjour", cv := .null } ∧
    resubmitWorld.network.length = 1 ∧
    (handleSubmit (fetchAnswers acceptedResponse) resubmitWorld).2.network =
      resubmitWorld.network ++
        [{ url := "https://casbah-backend.onrender.com/api/candidatures",
           method := "POST",
           headers := [("Authorization", "Bearer t1")],
           body := .formData
             [("telephone", .text "0550123456"),
              ("poste", .text "Agent Commercial / Réceptionniste"),
              ("motivation", .text "Bonjour"),
              ("cv", .text "null")] }] := by
  decide

/-- C10: for every form state and every token that is a string `t`, the one
request `handleSubmit` makes is a POST to `/api/candidatures` on the base
URL, with the single header `Authorization: Bearer t` and a form-data body of
exactly four entries, `telephone`, `poste`, `motivation` and `cv` in this
order, each with the current value of its field as `FormData.append` stores
it: the three texts as they are, a chosen file as that file, and an absent
file as the text of `null` or `undefined`. -/
theorem handleSubmit_request (fetch : Fetch) (w : World) (t : String)
    (ht : w.app.token = .ofJson (.str t)) :
    (handleSubmit fetch w).2.network =
      w.network ++
        [{ url := API_URL ++ "/api/candidatures",
           method := "POST",
           headers := [("Authorization", "Bearer " ++ t)],
           body := .formData
             [("telephone", .text w.application.telephone),
              ("poste", .text w.application.poste),
              ("motivation", .text w.application.motivation),
              ("cv", match w.application.cv with
                     | .file f => .file f
                     | .null => .text "null"
                     | .undefined => .text "undefined")] }] := by
  have hauth : bearer w.app.token = .ok ("Bearer " ++ t) := by
    simp [bearer, ht, toJsString_str]
  rw [handleSubmit_network fetch w _ hauth]
  cases hcv : w.application.cv <;> simp [submitRequest, buildFormData, CvValue.toEntry, hcv]

/-- Witness of C10: the filled form with token "t1" on a network that rejects
the request. -/
theorem handleSubmit_request_witness :
    filledWorld.app.token = .ofJson (.str "t1") ∧
    (handleSubmit fetchRejects filledWorld).2.network =
      [{ url := "https://casbah-backend.onrender.com/api/candidatures",
         method := "POST",
         headers := [("Authorization", "Bearer t1")],
         body := .formData
           [("telephone", .text "0550123456"),
            ("poste", .text "Secrétaire"),
            ("motivation", .text "Bonjour"),
            ("cv", .file cvFile)] }] :=
  ⟨rfl, handleSubmit_request fetchRejects filledWorld "t1" rfl⟩

/-! ## Failures of the three submit handlers -/

/-- Counterexample to C7 as stated: when the application request is rejected
there is no server message, yet the alert shows the message of the rejection
and not the fallback of `handleSubmit`. -/
theorem handleSubmit_rejected_message :
    failedOutcome (fetchRejects (submitRequest "Bearer t1" (buildFormData filledWorld.application)))
      = true ∧
    (handleSubmit fetchRejects filledWorld).2.app.alert =
      { message := "Failed to fetch", type := .error } ∧
    specFailureMessage submitFallback
      (fetchRejects (submitRequest "Bearer t1" (buildFormData filledWorld.application))) =
      "Erreur lors de l'envoi." ∧
    (handleSubmit fetchRejects filledWorld).2.app.alert.message ≠
      specFailureMessage submitFallback
        (fetchRejects (submitRequest "Bearer t1" (buildFormData filledWorld.application))) := by
  decide

/-- C7 (amended): for each of the three submit handlers and every failing
outcome of its network call (request rejected, body that does not parse,
non-2xx response), the handler completes without an exception escaping it,
has made exactly that one request, and sets an alert of kind error.  The
message is that of the error thrown when the request is rejected or the body
does not parse; for a non-2xx response with a JSON body it is the server's
`message` when that is a non-empty string, and the handler's fallback when
the body, not being `null`, has no `message` or a falsy one. -/
theorem submitHandler_failure (h : SubmitHandler) (fetch : Fetch) (w : World) (req : Request)
    (hreq : h.request w = some req) (hfail : failedOutcome (fetch req) = true) :
    (h.run fetch w).1 = .ok () ∧
    (h.run fetch w).2.network = w.network ++ [req] ∧
    (h.run fetch w).2.app.alert.type = .error ∧
    (∀ e, fetch req = .error e → (h.run fetch w).2.app.alert.message = e.message) ∧
    (∀ r e, fetch req = .ok r → r.json = .error e →
      (h.run fetch w).2.app.alert.message = e.message) ∧
    (∀ r data m, fetch req = .ok r → r.json = .ok data →
      data.getProp "message" = .ok (.ofJson (.str m)) → m ≠ "" →
      (h.run fetch w).2.app.alert.message = m) ∧
    (∀ r data v, fetch req = .ok r → r.json = .ok data →
      data.getProp "message" = .ok v → v.truthy = false →
      (h.run fetch w).2.app.alert.message = h.fallback) := by
  rw [submitHandler_failed h fetch w req hreq hfail]
  refine ⟨rfl, rfl, rfl, ?_, ?_, ?_, ?_⟩
  · intro e he
    simp [World.setAlert, he, thrownError_rejected]
  · intro r e hr hj
    simp [World.setAlert, hr, thrownError_unparsed h.fallback r e hj]
  · intro r data m hr hj hm hne
    simp [World.setAlert, hr, thrownError_server h.fallback r data m hj hm hne]
  · intro r data v hr hj hm hv
    simp [World.setAlert, hr, thrownError_fallback h.fallback r data v hj hm hv]

/-- Witness of C7 (amended): registration with matching passwords answered
with status 401 and the message "Compte inconnu". -/
theorem submitHandler_failure_witness :
    SubmitHandler.register.request registerWorld =
      some (registerRequest registerWorld.auth.registerData) ∧
    failedOutcome (fetchAnswers refusedResponse
      (registerRequest registerWorld.auth.registerData)) = true ∧
    (handleRegister (fetchAnswers refusedResponse) registerWorld).1 = .ok () ∧
    (handleRegister (fetchAnswers refusedResponse) registerWorld).2.app.alert.type = .error ∧
    (handleRegister (fetchAnswers refusedResponse) registerWorld).2.app.alert.message =
      "Compte inconnu" :=
  ⟨by decide, by decide,
   (submitHandler_failure .register (fetchAnswers refusedResponse) registerWorld
      (registerRequest registerWorld.auth.registerData) (by decide) (by decide)).1,
   (submitHandler_failure .register (fetchAnswers refusedResponse) registerWorld
      (registerRequest registerWorld.auth.registerData) (by decide) (by decide)).2.2.1,
   (submitHandler_failure .register (fetchAnswers refusedResponse) registerWorld
      (registerRequest registerWorld.auth.registerData) (by decide) (by decide)).2.2.2.2.2.1
      refusedResponse (.obj [("message", .str "Compte inconnu")]) "Compte inconnu"
      rfl rfl rfl (by decide)⟩

end Casbah
